import Mathlib

/-!
Verification model of the gns3-server dynamips ATM switch backend
(`src/gns3server/modules/dynamips/backends/atmsw.py`).

The backend class `ATMSW` exposes five per-switch request handlers
(`atmsw_delete`, `atmsw_update`, `atmsw_allocate_udp_port`, `atmsw_add_nio`,
`atmsw_delete_nio`) over a registry `_atm_switches` mapping switch ids to
`ATMSwitch` node instances.  Handlers are embedded as pure functions from a
server state and a structured request to a new server state and an outcome
(echoed response or error).  Python's in-place mutation is made explicit:
a handler that mutates the switch before failing returns the mutated state
together with the error, exactly as the Python objects would remain mutated
after `send_custom_error` or an uncaught exception.

The `ATMSwitch` node class (`atm_switch.py`) and the base-backend helpers
(`create_nio`, `allocate_udp_port`) are not part of the sources; their
operations are modelled from the specification, each marked with a doc
comment starting `Modelled from the spec:`.
-/

namespace GNS3

/-- An ATM circuit address: either a virtual-channel address
`(port, vpi, vci)` or a virtual-path address `(port, vpi)`.
Components are integers, mirroring Python's unbounded `int`. -/
inductive Addr where
  | vc (port vpi vci : Int)
  | vp (port vpi : Int)
deriving DecidableEq, Repr

/-- Port component of an address. -/
def Addr.portOf : Addr → Int
  | Addr.vc p _ _ => p
  | Addr.vp p _ => p

/-- NIO specification, as documented in the `atmsw_add_nio` docstring
(atmsw.py lines 175-192): one of the seven recognized kinds, or an
unrecognized kind (`nio_unknown`). -/
inductive NioSpec where
  | nio_udp (lport : Int) (rhost : String) (rport : Int)
  | nio_generic_ethernet (ethernet_device : String)
  | nio_linux_ethernet (ethernet_device : String)
  | nio_tap (tap_device : String)
  | nio_unix (local_file : String) (remote_file : String)
  | nio_vde (control_file : String) (local_file : String)
  | nio_null
  | nio_unknown (nio_type : String)
deriving DecidableEq, Repr

/-- Error outcomes of the handlers.  `notFound` models the `KeyError`
raised by `self._atm_switches[atmsw_id]` on an unknown id (the spec's
`NotFoundError`); `unsupportedNio` models the `DynamipsError` raised for an
unrecognized NIO kind; `portInUse` models the node-level failure of
`add_nio` on an occupied port; `malformedAddress` models the `ValueError`
raised by `int()` / tuple unpacking while parsing address strings or table
entries (the spec's `MalformedAddressError`). -/
inductive ErrKind where
  | notFound
  | unsupportedNio
  | portInUse
  | malformedAddress
deriving DecidableEq, Repr

/-- Handler outcome: a successful response (the handlers here echo the
request) or an error. -/
inductive Outcome (ρ : Type) where
  | ok (resp : ρ)
  | err (e : ErrKind)
deriving DecidableEq, Repr

/-- One ATM switch node: display name, port table (port number to attached
endpoint, at most one endpoint per port) and the circuit-mapping table.
Both tables are association lists with first-match lookup, mirroring
Python dictionaries (insertion order, unique keys maintained by the API). -/
structure ATMSwitch where
  name : String
  ports : List (Int × NioSpec)
  mapping : List (Addr × Addr)
deriving DecidableEq, Repr

/-- The backend's registry `_atm_switches`: switch id to node instance. -/
structure ServerState where
  switches : List (Int × ATMSwitch)
deriving DecidableEq, Repr

/-- First-match association-list lookup (Python `dict` access). -/
def dictLookup {α β : Type} [DecidableEq α] : List (α × β) → α → Option β
  | [], _ => none
  | (k, v) :: rest, x => if k = x then some v else dictLookup rest x

/-- Replace the value stored under a key (in-place object mutation seen
through the registry). -/
def updateAssoc (l : List (Int × ATMSwitch)) (k : Int) (v : ATMSwitch) :
    List (Int × ATMSwitch) :=
  l.map (fun e => if e.1 = k then (k, v) else e)

/-- The switch registered under an id, with a dummy default for absent ids
(used only to state theorems without an inner existential). -/
def switchAt (st : ServerState) (i : Int) : ATMSwitch :=
  (dictLookup st.switches i).getD { name := "", ports := [], mapping := [] }

/- ---------------------------------------------------------------------
   Address-string parsing (atmsw.py lines 222-242).
   `pvc_entry = re.compile(r"^([0-9]*):([0-9]*):([0-9]*)$")` and
   `map(int, source.split(':'))` are modelled character by character.
--------------------------------------------------------------------- -/

/-- Python `str.split(':')`. -/
def splitColonAux (acc : List Char) : List Char → List String
  | [] => [String.mk acc.reverse]
  | c :: cs =>
      if c = ':' then String.mk acc.reverse :: splitColonAux [] cs
      else splitColonAux (c :: acc) cs

/-- Python `str.split(':')` on a string. -/
def splitColon (s : String) : List String := splitColonAux [] s.data

/-- Numeric value of a list of decimal digits. -/
def digitsToNat (l : List Char) : Nat :=
  l.foldl (fun a c => a * 10 + (c.toNat - 48)) 0

/-- Python `int()` applied to a regex group matched by `[0-9]*`: the group
is all digits, and `int('')` raises `ValueError` (modelled as `none`). -/
def decDigits (s : String) : Option Nat :=
  if !s.data.isEmpty && s.data.all Char.isDigit then some (digitsToNat s.data)
  else none

/-- The anchored search of `^([0-9]*):([0-9]*):([0-9]*)$`: the string is
exactly three colon-separated (possibly empty) digit runs. -/
def matchPvc (s : String) : Option (String × String × String) :=
  match splitColon s with
  | [a, b, c] =>
      if a.data.all Char.isDigit && b.data.all Char.isDigit &&
         c.data.all Char.isDigit then some (a, b, c)
      else none
  | _ => none

/-- Whitespace stripped by Python `int()` around its argument. -/
def isPySpace (c : Char) : Bool :=
  c.toNat = 32 || c.toNat = 9 || c.toNat = 10 ||
  c.toNat = 13 || c.toNat = 11 || c.toNat = 12

/-- Strip leading and trailing whitespace. -/
def pyStrip (l : List Char) : List Char :=
  ((l.dropWhile isPySpace).reverse.dropWhile isPySpace).reverse

/-- Python `int(s)` on a string: optional surrounding whitespace, optional
sign, then a non-empty run of decimal digits; anything else raises
`ValueError` (modelled as `none`).  Digit-group underscores and non-ASCII
digits accepted by newer CPython are not modelled. -/
def pyInt (s : String) : Option Int :=
  match pyStrip s.data with
  | '-' :: rest =>
      if !rest.isEmpty && rest.all Char.isDigit then
        some (-(digitsToNat rest : Int))
      else none
  | '+' :: rest =>
      if !rest.isEmpty && rest.all Char.isDigit then
        some ((digitsToNat rest : Int))
      else none
  | l =>
      if !l.isEmpty && l.all Char.isDigit then
        some ((digitsToNat l : Int))
      else none

/-- Result of parsing one `source -> destination` mapping pair, following
atmsw.py lines 222-242: if both strings match the PVC regex, the pair is a
virtual-channel pair (with `int()` of an empty group raising `ValueError`,
i.e. `malformed`); otherwise both strings are split on `:` and must unpack
into exactly two `int()`-convertible parts to form a virtual-path pair,
any failure raising `ValueError` (`malformed`). -/
inductive PairParse where
  | pvc (sp svpi svci dp dvpi dvci : Int)
  | vp (sp svpi dp dvpi : Int)
  | malformed
deriving DecidableEq, Repr

/-- Parse one mapping pair exactly as the loop body of `atmsw_add_nio`
does before any table mutation. -/
def parsePair (source destination : String) : PairParse :=
  match matchPvc source, matchPvc destination with
  | some (s1, s2, s3), some (d1, d2, d3) =>
      match decDigits s1, decDigits s2, decDigits s3,
            decDigits d1, decDigits d2, decDigits d3 with
      | some sp, some svpi, some svci, some dp, some dvpi, some dvci =>
          PairParse.pvc sp svpi svci dp dvpi dvci
      | _, _, _, _, _, _ => PairParse.malformed
  | _, _ =>
      match splitColon source, splitColon destination with
      | [a, b], [c, d] =>
          match pyInt a, pyInt b, pyInt c, pyInt d with
          | some sp, some svpi, some dp, some dvpi =>
              PairParse.vp sp svpi dp dvpi
          | _, _, _, _ => PairParse.malformed
      | _, _ => PairParse.malformed

/- ---------------------------------------------------------------------
   ATMSwitch node operations.  The node class `atm_switch.py` is not in
   the sources; each operation is modelled from the specification.
--------------------------------------------------------------------- -/

/-- Modelled from the spec: `ATMSwitch.has_port` (node class, missing from
the sources) reports whether the port currently has an attached endpoint
(section 6: mapping pairs are skipped when the destination port has no
attached endpoint). -/
def ATMSwitch.has_port (sw : ATMSwitch) (p : Int) : Bool :=
  (dictLookup sw.ports p).isSome

/-- Modelled from the spec: `ATMSwitch.add_nio` (node class, missing from
the sources) — `attach` fails with `PortInUseError` if the port already has
an endpoint, otherwise binds it (section 4.3). -/
def ATMSwitch.add_nio (sw : ATMSwitch) (nio : NioSpec) (p : Int) :
    Except ErrKind ATMSwitch :=
  if (dictLookup sw.ports p).isSome then Except.error ErrKind.portInUse
  else Except.ok { sw with ports := sw.ports ++ [(p, nio)] }

/-- Modelled from the spec: `ATMSwitch.remove_nio` (node class, missing
from the sources) — returns the removed endpoint for the caller to close;
fails with `NotFoundError` if no endpoint is attached at that port
(section 4.3 `detach`). -/
def ATMSwitch.remove_nio (sw : ATMSwitch) (p : Int) :
    Except ErrKind (ATMSwitch × NioSpec) :=
  match dictLookup sw.ports p with
  | some nio =>
      Except.ok ({ sw with ports := sw.ports.filter (fun e => decide (e.1 ≠ p)) }, nio)
  | none => Except.error ErrKind.notFound

/-- Modelled from the spec: `ATMSwitch.map_pvc` (node class, missing from
the sources) inserts one directed virtual-channel entry into the mapping
table; the backend calls it once per direction (atmsw.py lines 233-234). -/
def ATMSwitch.map_pvc (sw : ATMSwitch) (port1 vpi1 vci1 port2 vpi2 vci2 : Int) :
    ATMSwitch :=
  { sw with mapping :=
      sw.mapping ++ [(Addr.vc port1 vpi1 vci1, Addr.vc port2 vpi2 vci2)] }

/-- Modelled from the spec: `ATMSwitch.map_vp` (node class, missing from
the sources) inserts one directed virtual-path entry. -/
def ATMSwitch.map_vp (sw : ATMSwitch) (port1 vpi1 port2 vpi2 : Int) :
    ATMSwitch :=
  { sw with mapping := sw.mapping ++ [(Addr.vp port1 vpi1, Addr.vp port2 vpi2)] }

/-- Modelled from the spec: `ATMSwitch.unmap_pvc` (node class, missing
from the sources) removes exactly the entry keyed by the named source
address; removing a non-existent entry is a no-op, not an error
(section 4.3 `unmap_virtual_channel`). -/
def ATMSwitch.unmap_pvc (sw : ATMSwitch) (port1 vpi1 vci1 _port2 _vpi2 _vci2 : Int) :
    ATMSwitch :=
  { sw with mapping :=
      sw.mapping.filter (fun e => decide (e.1 ≠ Addr.vc port1 vpi1 vci1)) }

/-- Modelled from the spec: `ATMSwitch.unmap_vp` (node class, missing from
the sources), path-level analogue of `unmap_pvc`. -/
def ATMSwitch.unmap_vp (sw : ATMSwitch) (port1 vpi1 _port2 _vpi2 : Int) :
    ATMSwitch :=
  { sw with mapping :=
      sw.mapping.filter (fun e => decide (e.1 ≠ Addr.vp port1 vpi1)) }

/-- Modelled from the spec: `ATMSwitch.delete` (node class, missing from
the sources) detaches and closes every attached endpoint and discards the
mapping table (section 4.3 `delete`); closing the endpoints is external,
so in the state it empties both tables. -/
def ATMSwitch.deleteNode (sw : ATMSwitch) : ATMSwitch :=
  { sw with ports := [], mapping := [] }

/-- Modelled from the spec: `create_nio` (base backend, missing from the
sources) builds an endpoint from a recognized NIO specification — the
seven kinds listed in the `atmsw_add_nio` docstring — and yields nothing
for an unrecognized kind. -/
def createNio (spec : NioSpec) : Option NioSpec :=
  match spec with
  | NioSpec.nio_unknown _ => none
  | s => some s

/- ---------------------------------------------------------------------
   Request records (the JSON requests of the five handlers).
--------------------------------------------------------------------- -/

/-- Request of `dynamips.atmsw.delete`. -/
structure DeleteRequest where
  id : Int
deriving DecidableEq, Repr

/-- Request of `dynamips.atmsw.update`; `name` is optional. -/
structure UpdateRequest where
  id : Int
  name : Option String
deriving DecidableEq, Repr

/-- Request of `dynamips.atmsw.allocate_udp_port`. -/
structure AllocateUdpRequest where
  id : Int
  port_id : Int
deriving DecidableEq, Repr

/-- Request of `dynamips.atmsw.add_nio`; `mappings` keeps the insertion
order of the Python dict. -/
structure AddNioRequest where
  id : Int
  port : Int
  port_id : Int
  nio : NioSpec
  mappings : List (String × String)
deriving DecidableEq, Repr

/-- Request of `dynamips.atmsw.delete_nio`. -/
structure DeleteNioRequest where
  id : Int
  port : Int
deriving DecidableEq, Repr

/-- Response of `dynamips.atmsw.allocate_udp_port`. -/
structure UdpPortResponse where
  lhost : String
  lport : Int
  port_id : Int
deriving DecidableEq, Repr

/-- Result of the external UDP port allocator (base backend
`allocate_udp_port`, missing from the sources). -/
structure UdpAllocation where
  lhost : String
  lport : Int
deriving DecidableEq, Repr

/- ---------------------------------------------------------------------
   The five request handlers of class ATMSW (atmsw.py).
--------------------------------------------------------------------- -/

/-- `atmsw_delete` (atmsw.py lines 62-90): looks up the switch (unknown id
raises `KeyError`, modelled `notFound`), calls the node-level delete and
the hypervisor unallocation (external), then echoes the request.  Note:
the handler never removes the id from `self._atm_switches`; the (emptied)
instance stays registered. -/
def atmsw_delete (st : ServerState) (req : DeleteRequest) :
    ServerState × Outcome DeleteRequest :=
  match dictLookup st.switches req.id with
  | none => (st, Outcome.err ErrKind.notFound)
  | some atmsw =>
      ({ switches := updateAssoc st.switches req.id atmsw.deleteNode },
       Outcome.ok req)

/-- `atmsw_update` (atmsw.py lines 92-126): renames the switch only when a
`name` field is present and differs from the current name, then echoes the
request. -/
def atmsw_update (st : ServerState) (req : UpdateRequest) :
    ServerState × Outcome UpdateRequest :=
  match dictLookup st.switches req.id with
  | none => (st, Outcome.err ErrKind.notFound)
  | some atmsw =>
      match req.name with
      | some n =>
          if atmsw.name ≠ n then
            ({ switches := updateAssoc st.switches req.id { atmsw with name := n } },
             Outcome.ok req)
          else (st, Outcome.ok req)
      | none => (st, Outcome.ok req)

/-- `atmsw_allocate_udp_port` (atmsw.py lines 128-163): looks up the
switch, then asks the external allocator for a local host/port pair and
adds the request's `port_id`.  The allocator (base backend, missing from
the sources) is passed as the `alloc` argument. -/
def atmsw_allocate_udp_port (alloc : UdpAllocation) (st : ServerState)
    (req : AllocateUdpRequest) : ServerState × Outcome UdpPortResponse :=
  match dictLookup st.switches req.id with
  | none => (st, Outcome.err ErrKind.notFound)
  | some _ =>
      (st, Outcome.ok { lhost := alloc.lhost, lport := alloc.lport,
                        port_id := req.port_id })

/-- Apply one parsed mapping pair (loop body of atmsw.py lines 223-242):
a parse failure raises `ValueError` before any mutation; otherwise, if the
destination port has an attached endpoint and neither address is already a
mapping key, both directions are inserted; otherwise the pair is skipped
silently. -/
def applyParsed (sw : ATMSwitch) : PairParse → Except ErrKind ATMSwitch
  | PairParse.pvc sp svpi svci dp dvpi dvci =>
      if sw.has_port dp then
        if (dictLookup sw.mapping (Addr.vc sp svpi svci)).isNone &&
           (dictLookup sw.mapping (Addr.vc dp dvpi dvci)).isNone then
          Except.ok ((sw.map_pvc sp svpi svci dp dvpi dvci).map_pvc
            dp dvpi dvci sp svpi svci)
        else Except.ok sw
      else Except.ok sw
  | PairParse.vp sp svpi dp dvpi =>
      if sw.has_port dp then
        if (dictLookup sw.mapping (Addr.vp sp svpi)).isNone &&
           (dictLookup sw.mapping (Addr.vp dp dvpi)).isNone then
          Except.ok ((sw.map_vp sp svpi dp dvpi).map_vp dp dvpi sp svpi)
        else Except.ok sw
      else Except.ok sw
  | PairParse.malformed => Except.error ErrKind.malformedAddress

/-- One `source -> destination` item of the `mappings` loop. -/
def applyMapping (sw : ATMSwitch) (source destination : String) :
    Except ErrKind ATMSwitch :=
  applyParsed sw (parsePair source destination)

/-- The `mappings` loop of `atmsw_add_nio`: items are applied in order;
on an uncaught parse error the loop stops, keeping the mutations applied
so far (Python mutates the node in place). -/
def applyMappings (sw : ATMSwitch) :
    List (String × String) → ATMSwitch × Option ErrKind
  | [] => (sw, none)
  | (s, d) :: rest =>
      match applyMapping sw s d with
      | Except.ok sw1 => applyMappings sw1 rest
      | Except.error e => (sw, some e)

/-- `atmsw_add_nio` (atmsw.py lines 165-249): looks up the switch, builds
the endpoint (`create_nio`; an unrecognized kind is reported before any
mutation), attaches it to the requested port, then applies the circuit
mappings pair by pair.  A failure during the mapping loop leaves the
attachment and the previously applied pairs in place. -/
def atmsw_add_nio (st : ServerState) (req : AddNioRequest) :
    ServerState × Outcome AddNioRequest :=
  match dictLookup st.switches req.id with
  | none => (st, Outcome.err ErrKind.notFound)
  | some atmsw =>
      match createNio req.nio with
      | none => (st, Outcome.err ErrKind.unsupportedNio)
      | some nio =>
          match atmsw.add_nio nio req.port with
          | Except.error e => (st, Outcome.err e)
          | Except.ok sw1 =>
              match applyMappings sw1 req.mappings with
              | (sw2, some e) =>
                  ({ switches := updateAssoc st.switches req.id sw2 },
                   Outcome.err e)
              | (sw2, none) =>
                  ({ switches := updateAssoc st.switches req.id sw2 },
                   Outcome.ok req)

/-- One iteration of the `delete_nio` cleanup loop (atmsw.py lines
277-291), dispatching on the arity of the table entry: a channel entry
whose source port matches is unmapped together with its counterpart, a
path entry likewise; a mixed-arity entry makes the tuple unpacking raise
`ValueError`. -/
def deleteNioStep (port : Int) (sw : ATMSwitch) (e : Addr × Addr) :
    Except ErrKind ATMSwitch :=
  match e with
  | (Addr.vc sp svpi svci, Addr.vc dp dvpi dvci) =>
      if port = sp then
        Except.ok ((sw.unmap_pvc sp svpi svci dp dvpi dvci).unmap_pvc
          dp dvpi dvci sp svpi svci)
      else Except.ok sw
  | (Addr.vp sp svpi, Addr.vp dp dvpi) =>
      if port = sp then
        Except.ok ((sw.unmap_vp sp svpi dp dvpi).unmap_vp dp dvpi sp svpi)
      else Except.ok sw
  | _ => Except.error ErrKind.malformedAddress

/-- The cleanup loop of `atmsw_delete_nio`, iterating over a snapshot
(`atmsw.mapping.copy()`) while the live table is mutated; an error stops
the loop keeping the mutations applied so far. -/
def removeMappingsLoop (port : Int) (sw : ATMSwitch) :
    List (Addr × Addr) → ATMSwitch × Option ErrKind
  | [] => (sw, none)
  | e :: rest =>
      match deleteNioStep port sw e with
      | Except.ok sw1 => removeMappingsLoop port sw1 rest
      | Except.error err => (sw, some err)

/-- `atmsw_delete_nio` (atmsw.py lines 251-300): looks up the switch,
removes every mapping entry sourced at the detached port together with its
counterpart, then removes the endpoint (`remove_nio`) and deletes it
(external close), echoing the request. -/
def atmsw_delete_nio (st : ServerState) (req : DeleteNioRequest) :
    ServerState × Outcome DeleteNioRequest :=
  match dictLookup st.switches req.id with
  | none => (st, Outcome.err ErrKind.notFound)
  | some atmsw =>
      match removeMappingsLoop req.port atmsw atmsw.mapping with
      | (sw1, some e) =>
          ({ switches := updateAssoc st.switches req.id sw1 }, Outcome.err e)
      | (sw1, none) =>
          match sw1.remove_nio req.port with
          | Except.error e =>
              ({ switches := updateAssoc st.switches req.id sw1 },
               Outcome.err e)
          | Except.ok (sw2, _nio) =>
              ({ switches := updateAssoc st.switches req.id sw2 },
               Outcome.ok req)

/- ---------------------------------------------------------------------
   Invariants of the circuit-mapping table.
--------------------------------------------------------------------- -/

/-- Symmetric-pair invariant, membership form (spec section 3): every
entry's reverse lookup returns its source. -/
def symPairsP (m : List (Addr × Addr)) : Prop :=
  ∀ e ∈ m, dictLookup m e.2 = some e.1

/-- Boolean form of `symPairsP`, evaluable on concrete tables. -/
def symPairsB (m : List (Addr × Addr)) : Bool :=
  m.all (fun e => decide (dictLookup m e.2 = some e.1))

/-- Whether two addresses have the same shape (both virtual-channel or
both virtual-path). -/
def sameShape : Addr → Addr → Bool
  | Addr.vc _ _ _, Addr.vc _ _ _ => true
  | Addr.vp _ _, Addr.vp _ _ => true
  | _, _ => false

/-- Every entry of the table pairs addresses of the same shape. -/
def wfShapesB (m : List (Addr × Addr)) : Bool :=
  m.all (fun e => sameShape e.1 e.2)

/-- Keys of the table are pairwise distinct (Python dict keys). -/
def keysNodup (m : List (Addr × Addr)) : Prop :=
  (m.map Prod.fst).Nodup

/-- No entry of the table references the given port on either side. -/
def noPortRefs (port : Int) (m : List (Addr × Addr)) : Bool :=
  m.all (fun e => !(decide (e.1.portOf = port)) && !(decide (e.2.portOf = port)))

/-- Addresses removed by the `delete_nio` cleanup loop run on snapshot
`l`: the source and destination of every entry sourced at `port`. -/
def removedKeys (port : Int) (l : List (Addr × Addr)) (x : Addr) : Bool :=
  l.any (fun e =>
    decide (port = e.1.portOf) && (decide (x = e.1) || decide (x = e.2)))

/- ---------------------------------------------------------------------
   Association-list and filter lemmas.
--------------------------------------------------------------------- -/

theorem symPairsB_iff (m : List (Addr × Addr)) :
    symPairsB m = true ↔ symPairsP m := by
  simp [symPairsB, symPairsP, List.all_eq_true]

theorem dictLookup_append_some {α β : Type} [DecidableEq α]
    {l1 : List (α × β)} {x : α} {v : β} (l2 : List (α × β))
    (h : dictLookup l1 x = some v) :
    dictLookup (l1 ++ l2) x = some v := by
  induction l1 with
  | nil => simp [dictLookup] at h
  | cons e rest ih =>
      obtain ⟨k, w⟩ := e
      by_cases hk : k = x
      · simpa [dictLookup, hk] using h
      · simp [dictLookup, hk] at h ⊢
        exact ih h

theorem dictLookup_append_none {α β : Type} [DecidableEq α]
    {l1 : List (α × β)} {x : α} (l2 : List (α × β))
    (h : dictLookup l1 x = none) :
    dictLookup (l1 ++ l2) x = dictLookup l2 x := by
  induction l1 with
  | nil => simp [dictLookup]
  | cons e rest ih =>
      obtain ⟨k, w⟩ := e
      by_cases hk : k = x
      · simp [dictLookup, hk] at h
      · simp [dictLookup, hk] at h ⊢
        exact ih h

theorem dictLookup_mem {α β : Type} [DecidableEq α]
    {l : List (α × β)} {x : α} {v : β} (h : dictLookup l x = some v) :
    (x, v) ∈ l := by
  induction l with
  | nil => simp [dictLookup] at h
  | cons e rest ih =>
      obtain ⟨k, w⟩ := e
      by_cases hk : k = x
      · subst hk
        simp [dictLookup] at h
        subst h
        exact List.mem_cons_self _ _
      · simp [dictLookup, hk] at h
        exact List.mem_cons_of_mem _ (ih h)

theorem mem_dictLookup {α β : Type} [DecidableEq α]
    {l : List (α × β)} {x : α} {v : β} (h : (x, v) ∈ l)
    (hnd : (l.map Prod.fst).Nodup) : dictLookup l x = some v := by
  induction l with
  | nil => simp at h
  | cons e rest ih =>
      obtain ⟨k, w⟩ := e
      simp only [List.map_cons, List.nodup_cons] at hnd
      rcases List.mem_cons.mp h with h1 | h1
      · cases h1
        simp [dictLookup]
      · by_cases hk : k = x
        · exfalso
          subst hk
          exact hnd.1 (List.mem_map.mpr ⟨(k, v), h1, rfl⟩)
        · simp only [dictLookup, if_neg hk]
          exact ih h1 hnd.2

theorem dictLookup_filterKey {α β : Type} [DecidableEq α]
    (l : List (α × β)) (p : α → Bool) (x : α) :
    dictLookup (l.filter (fun e => p e.1)) x =
      if p x = true then dictLookup l x else none := by
  induction l with
  | nil => simp [dictLookup]
  | cons e rest ih =>
      obtain ⟨k, w⟩ := e
      cases hpk : p k with
      | false =>
          by_cases hk : k = x
          · subst hk
            simp [List.filter_cons, hpk, dictLookup, ih]
          · simp [List.filter_cons, hpk, dictLookup, hk, ih]
      | true =>
          by_cases hk : k = x
          · subst hk
            simp [List.filter_cons, hpk, dictLookup]
          · simp [List.filter_cons, hpk, dictLookup, hk, ih]

theorem updateAssoc_cons (a : Int) (b : ATMSwitch)
    (rest : List (Int × ATMSwitch)) (k : Int) (v : ATMSwitch) :
    updateAssoc ((a, b) :: rest) k v =
      (if a = k then (k, v) else (a, b)) :: updateAssoc rest k v := rfl

theorem dictLookup_updateAssoc (l : List (Int × ATMSwitch)) (k : Int)
    (v : ATMSwitch) (x : Int) :
    dictLookup (updateAssoc l k v) x =
      if x = k then (dictLookup l k).map (fun _ => v) else dictLookup l x := by
  induction l with
  | nil => simp [updateAssoc, dictLookup]
  | cons e rest ih =>
      obtain ⟨a, b⟩ := e
      rw [updateAssoc_cons]
      by_cases hak : a = k
      · rw [if_pos hak]
        subst hak
        by_cases hx : x = a
        · subst hx
          simp [dictLookup]
        · have hax : ¬ a = x := fun h => hx h.symm
          simp only [dictLookup, if_neg hax]
          rw [ih]
          simp [hx]
      · rw [if_neg hak]
        by_cases hax : a = x
        · subst hax
          simp [dictLookup, hak]
        · have hx : ¬ x = a := fun h => hax h.symm
          simp only [dictLookup, if_neg hax]
          rw [ih]
          by_cases hxk : x = k
          · subst hxk
            simp [if_pos rfl, dictLookup, if_neg hak]
          · simp [if_neg hxk]

theorem filter_true_eq {α : Type} (l : List α) :
    l.filter (fun _ => true) = l := by
  induction l with
  | nil => rfl
  | cons a rest ih => simp [List.filter_cons, ih]

theorem filter_filter_eq {α : Type} (p q : α → Bool) (l : List α) :
    (l.filter p).filter q = l.filter (fun a => p a && q a) := by
  induction l with
  | nil => rfl
  | cons a rest ih =>
      cases hp : p a with
      | false => simp [List.filter_cons, hp, ih]
      | true =>
          cases hq : q a with
          | false => simp [List.filter_cons, hp, hq, ih]
          | true => simp [List.filter_cons, hp, hq, ih]

theorem filter_congr_eq {α : Type} {p q : α → Bool} (l : List α)
    (h : ∀ a ∈ l, p a = q a) : l.filter p = l.filter q := by
  induction l with
  | nil => rfl
  | cons a rest ih =>
      have ha := h a (List.mem_cons_self _ _)
      have hrest : ∀ b ∈ rest, p b = q b :=
        fun b hb => h b (List.mem_cons_of_mem _ hb)
      cases hp : p a with
      | false =>
          have hq : q a = false := ha.symm.trans hp
          simp [List.filter_cons, hp, hq, ih hrest]
      | true =>
          have hq : q a = true := ha.symm.trans hp
          simp [List.filter_cons, hp, hq, ih hrest]

/- ---------------------------------------------------------------------
   Symmetry preservation of the mapping-application path.
--------------------------------------------------------------------- -/

theorem symPairsP_insertPair {m : List (Addr × Addr)} {a b : Addr}
    (hm : symPairsP m) (ha : dictLookup m a = none)
    (hb : dictLookup m b = none) : symPairsP (m ++ [(a, b), (b, a)]) := by
  intro e he
  rcases List.mem_append.mp he with h | h
  · exact dictLookup_append_some _ (hm e h)
  · rcases List.mem_cons.mp h with h1 | h1
    · subst h1
      rw [dictLookup_append_none _ hb]
      by_cases hab : a = b
      · subst hab
        simp [dictLookup]
      · simp [dictLookup, hab]
    · rcases List.mem_cons.mp h1 with h2 | h2
      · subst h2
        rw [dictLookup_append_none _ ha]
        simp [dictLookup]
      · simp at h2

theorem add_nio_ok {sw sw1 : ATMSwitch} {nio : NioSpec} {p : Int}
    (h : sw.add_nio nio p = Except.ok sw1) :
    sw1 = { sw with ports := sw.ports ++ [(p, nio)] } ∧
      (dictLookup sw.ports p).isSome = false := by
  unfold ATMSwitch.add_nio at h
  split at h
  · simp at h
  · rename_i hc
    injection h with h1
    exact ⟨h1.symm, Bool.eq_false_iff.mpr hc⟩

theorem applyParsed_symPairs {sw sw' : ATMSwitch} {pp : PairParse}
    (hm : symPairsP sw.mapping) (h : applyParsed sw pp = Except.ok sw') :
    symPairsP sw'.mapping := by
  cases pp with
  | malformed => simp [applyParsed] at h
  | pvc sp svpi svci dp dvpi dvci =>
      cases hp : sw.has_port dp with
      | false =>
          simp [applyParsed, hp] at h
          exact h ▸ hm
      | true =>
          by_cases hg : ((dictLookup sw.mapping (Addr.vc sp svpi svci)).isNone &&
              (dictLookup sw.mapping (Addr.vc dp dvpi dvci)).isNone) = true
          · simp [applyParsed, hp, hg] at h
            have ha : dictLookup sw.mapping (Addr.vc sp svpi svci) = none := by
              have := (Bool.and_eq_true .. ▸ hg).1
              simpa [Option.isNone_iff_eq_none] using this
            have hb : dictLookup sw.mapping (Addr.vc dp dvpi dvci) = none := by
              have := (Bool.and_eq_true .. ▸ hg).2
              simpa [Option.isNone_iff_eq_none] using this
            have hmap : sw'.mapping =
                sw.mapping ++ [(Addr.vc sp svpi svci, Addr.vc dp dvpi dvci),
                  (Addr.vc dp dvpi dvci, Addr.vc sp svpi svci)] := by
              rw [← h]
              simp [ATMSwitch.map_pvc]
            rw [hmap]
            exact symPairsP_insertPair hm ha hb
          · simp [applyParsed, hp, hg] at h
            exact h ▸ hm
  | vp sp svpi dp dvpi =>
      cases hp : sw.has_port dp with
      | false =>
          simp [applyParsed, hp] at h
          exact h ▸ hm
      | true =>
          by_cases hg : ((dictLookup sw.mapping (Addr.vp sp svpi)).isNone &&
              (dictLookup sw.mapping (Addr.vp dp dvpi)).isNone) = true
          · simp [applyParsed, hp, hg] at h
            have ha : dictLookup sw.mapping (Addr.vp sp svpi) = none := by
              have := (Bool.and_eq_true .. ▸ hg).1
              simpa [Option.isNone_iff_eq_none] using this
            have hb : dictLookup sw.mapping (Addr.vp dp dvpi) = none := by
              have := (Bool.and_eq_true .. ▸ hg).2
              simpa [Option.isNone_iff_eq_none] using this
            have hmap : sw'.mapping =
                sw.mapping ++ [(Addr.vp sp svpi, Addr.vp dp dvpi),
                  (Addr.vp dp dvpi, Addr.vp sp svpi)] := by
              rw [← h]
              simp [ATMSwitch.map_vp]
            rw [hmap]
            exact symPairsP_insertPair hm ha hb
          · simp [applyParsed, hp, hg] at h
            exact h ▸ hm

theorem applyParsed_lookup_persist {sw sw' : ATMSwitch} {pp : PairParse}
    {a b : Addr} (hab : dictLookup sw.mapping a = some b)
    (h : applyParsed sw pp = Except.ok sw') :
    dictLookup sw'.mapping a = some b := by
  cases pp with
  | malformed => simp [applyParsed] at h
  | pvc sp svpi svci dp dvpi dvci =>
      cases hp : sw.has_port dp with
      | false =>
          simp [applyParsed, hp] at h
          exact h ▸ hab
      | true =>
          by_cases hg : ((dictLookup sw.mapping (Addr.vc sp svpi svci)).isNone &&
              (dictLookup sw.mapping (Addr.vc dp dvpi dvci)).isNone) = true
          · simp [applyParsed, hp, hg] at h
            rw [← h]
            simp only [ATMSwitch.map_pvc]
            exact dictLookup_append_some _ (dictLookup_append_some _ hab)
          · simp [applyParsed, hp, hg] at h
            exact h ▸ hab
  | vp sp svpi dp dvpi =>
      cases hp : sw.has_port dp with
      | false =>
          simp [applyParsed, hp] at h
          exact h ▸ hab
      | true =>
          by_cases hg : ((dictLookup sw.mapping (Addr.vp sp svpi)).isNone &&
              (dictLookup sw.mapping (Addr.vp dp dvpi)).isNone) = true
          · simp [applyParsed, hp, hg] at h
            rw [← h]
            simp only [ATMSwitch.map_vp]
            exact dictLookup_append_some _ (dictLookup_append_some _ hab)
          · simp [applyParsed, hp, hg] at h
            exact h ▸ hab

theorem applyMappings_symPairs :
    ∀ (pairs : List (String × String)) (sw : ATMSwitch),
      symPairsP sw.mapping → symPairsP ((applyMappings sw pairs).1).mapping := by
  intro pairs
  induction pairs with
  | nil => intro sw hm; simpa [applyMappings] using hm
  | cons pr rest ih =>
      intro sw hm
      obtain ⟨s, d⟩ := pr
      cases h : applyMapping sw s d with
      | ok sw1 =>
          simp only [applyMappings, h]
          exact ih sw1 (applyParsed_symPairs hm h)
      | error e =>
          simpa [applyMappings, h] using hm

theorem applyMappings_lookup_persist :
    ∀ (pairs : List (String × String)) (sw : ATMSwitch) (a b : Addr),
      dictLookup sw.mapping a = some b →
      dictLookup ((applyMappings sw pairs).1).mapping a = some b := by
  intro pairs
  induction pairs with
  | nil => intro sw a b hab; simpa [applyMappings] using hab
  | cons pr rest ih =>
      intro sw a b hab
      obtain ⟨s, d⟩ := pr
      cases h : applyMapping sw s d with
      | ok sw1 =>
          simp only [applyMappings, h]
          exact ih sw1 a b (applyParsed_lookup_persist hab h)
      | error e =>
          simpa [applyMappings, h] using hab

/- ---------------------------------------------------------------------
   Characterization of the delete_nio cleanup loop.
--------------------------------------------------------------------- -/

theorem wfShapesB_iff (m : List (Addr × Addr)) :
    wfShapesB m = true ↔ ∀ e ∈ m, sameShape e.1 e.2 = true := by
  simp [wfShapesB, List.all_eq_true]

theorem dictLookup_filter_keyed {α β : Type} [DecidableEq α]
    (l : List (α × β)) (q : α × β → Bool) (p : α → Bool)
    (hq : ∀ e, q e = p e.1) (x : α) :
    dictLookup (l.filter q) x = if p x = true then dictLookup l x else none := by
  rw [filter_congr_eq l (fun e _ => hq e)]
  exact dictLookup_filterKey l p x

theorem removedKeys_of_mem {port : Int} {m : List (Addr × Addr)}
    {en : Addr × Addr} (hmem : en ∈ m) (hport : port = en.1.portOf)
    {x : Addr} (hx : x = en.1 ∨ x = en.2) : removedKeys port m x = true := by
  rw [removedKeys, List.any_eq_true]
  refine ⟨en, hmem, ?_⟩
  rw [Bool.and_eq_true, Bool.or_eq_true]
  refine ⟨decide_eq_true hport, ?_⟩
  rcases hx with h | h
  · exact Or.inl (decide_eq_true h)
  · exact Or.inr (decide_eq_true h)

theorem removedKeys_spec {port : Int} {m : List (Addr × Addr)} {x : Addr}
    (h : removedKeys port m x = true) :
    ∃ en ∈ m, port = en.1.portOf ∧ (x = en.1 ∨ x = en.2) := by
  rw [removedKeys, List.any_eq_true] at h
  obtain ⟨en, hmem, hf⟩ := h
  rw [Bool.and_eq_true, Bool.or_eq_true, decide_eq_true_eq,
     decide_eq_true_eq, decide_eq_true_eq] at hf
  exact ⟨en, hmem, hf.1, hf.2⟩

theorem removeMappingsLoop_eq (port : Int) :
    ∀ (l : List (Addr × Addr)) (sw : ATMSwitch),
      (∀ e ∈ l, sameShape e.1 e.2 = true) →
      removeMappingsLoop port sw l =
        ({ sw with mapping :=
            sw.mapping.filter (fun e => !(removedKeys port l e.1)) }, none) := by
  intro l
  induction l with
  | nil =>
      intro sw _
      have hf : sw.mapping.filter (fun e => !(removedKeys port [] e.1)) =
          sw.mapping := by
        have hpt : ∀ a ∈ sw.mapping,
            (fun (e : Addr × Addr) => !(removedKeys port [] e.1)) a =
              (fun _ => true) a := by
          intro a _
          simp [removedKeys]
        rw [filter_congr_eq sw.mapping hpt, filter_true_eq]
      simp only [removeMappingsLoop]
      rw [hf]
  | cons e rest ih =>
      intro sw hwf
      obtain ⟨s, d⟩ := e
      have hs : sameShape s d = true := hwf (s, d) (List.mem_cons_self _ _)
      have hwr : ∀ e ∈ rest, sameShape e.1 e.2 = true :=
        fun e he => hwf e (List.mem_cons_of_mem _ he)
      cases s with
      | vp sp svpi =>
          cases d with
          | vc dp dvpi dvci => simp [sameShape] at hs
          | vp dp dvpi =>
              by_cases hp : port = sp
              · subst hp
                simp only [removeMappingsLoop, deleteNioStep,
                  eq_self_iff_true, if_true]
                rw [ih _ hwr]
                simp only [ATMSwitch.unmap_vp]
                refine congrArg (fun z => (z, (none : Option ErrKind))) ?_
                refine congrArg (fun z => { sw with mapping := z }) ?_
                rw [filter_filter_eq, filter_filter_eq]
                apply filter_congr_eq
                intro a _
                simp [removedKeys, List.any_cons, Addr.portOf, ne_eq,
                  decide_not, Bool.not_or, Bool.and_assoc]
              · simp only [removeMappingsLoop, deleteNioStep, if_neg hp]
                rw [ih _ hwr]
                refine congrArg (fun z => (z, (none : Option ErrKind))) ?_
                refine congrArg (fun z => { sw with mapping := z }) ?_
                apply filter_congr_eq
                intro a _
                simp [removedKeys, List.any_cons, Addr.portOf, hp]
      | vc sp svpi svci =>
          cases d with
          | vp dp dvpi => simp [sameShape] at hs
          | vc dp dvpi dvci =>
              by_cases hp : port = sp
              · subst hp
                simp only [removeMappingsLoop, deleteNioStep,
                  eq_self_iff_true, if_true]
                rw [ih _ hwr]
                simp only [ATMSwitch.unmap_pvc]
                refine congrArg (fun z => (z, (none : Option ErrKind))) ?_
                refine congrArg (fun z => { sw with mapping := z }) ?_
                rw [filter_filter_eq, filter_filter_eq]
                apply filter_congr_eq
                intro a _
                simp [removedKeys, List.any_cons, Addr.portOf, ne_eq,
                  decide_not, Bool.not_or, Bool.and_assoc]
              · simp only [removeMappingsLoop, deleteNioStep, if_neg hp]
                rw [ih _ hwr]
                refine congrArg (fun z => (z, (none : Option ErrKind))) ?_
                refine congrArg (fun z => { sw with mapping := z }) ?_
                apply filter_congr_eq
                intro a _
                simp [removedKeys, List.any_cons, Addr.portOf, hp]

theorem symPairsP_filter_removedKeys {port : Int} {m : List (Addr × Addr)}
    (hsym : symPairsP m) (hnd : keysNodup m) :
    symPairsP (m.filter (fun e => !(removedKeys port m e.1))) := by
  intro e he
  rw [List.mem_filter] at he
  obtain ⟨hmem, hkeep⟩ := he
  have hkeepf : removedKeys port m e.1 = false := by
    cases h' : removedKeys port m e.1
    · rfl
    · rw [h'] at hkeep
      simp at hkeep
  rw [dictLookup_filter_keyed m _ (fun x => !(removedKeys port m x))
    (fun _ => rfl) e.2]
  have hrk2 : removedKeys port m e.2 = false := by
    cases htrue : removedKeys port m e.2
    · rfl
    · exfalso
      obtain ⟨en, henm, hport, hor⟩ := removedKeys_spec htrue
      rcases hor with h1 | h1
      · have hlk : dictLookup m en.1 = some en.2 := by
          have hpair : (en.1, en.2) ∈ m := by simpa using henm
          exact mem_dictLookup hpair hnd
        rw [← h1] at hlk
        have h2 := hsym e hmem
        have hv : en.2 = e.1 := Option.some.inj (hlk.symm.trans h2)
        have : removedKeys port m e.1 = true :=
          removedKeys_of_mem henm hport (Or.inr hv.symm)
        rw [this] at hkeepf
        exact absurd hkeepf (by simp)
      · have hlk2 := hsym en henm
        rw [← h1] at hlk2
        have h2 := hsym e hmem
        have hv : en.1 = e.1 := Option.some.inj (hlk2.symm.trans h2)
        have : removedKeys port m e.1 = true :=
          removedKeys_of_mem henm hport (Or.inl hv.symm)
        rw [this] at hkeepf
        exact absurd hkeepf (by simp)
  rw [hrk2]
  simp [hsym e hmem]

theorem dictLookup_filter_removedKeys_persist {port : Int}
    {m : List (Addr × Addr)} {a b : Addr} (hsym : symPairsP m)
    (hab : dictLookup m a = some b) (hpa : ¬ a.portOf = port)
    (hpb : ¬ b.portOf = port) :
    dictLookup (m.filter (fun e => !(removedKeys port m e.1))) a = some b := by
  rw [dictLookup_filter_keyed m _ (fun x => !(removedKeys port m x))
    (fun _ => rfl) a]
  have hrk : removedKeys port m a = false := by
    cases htrue : removedKeys port m a
    · rfl
    · exfalso
      obtain ⟨en, hmem, hport, hx⟩ := removedKeys_spec htrue
      rcases hx with h | h
      · refine hpa ?_
        rw [h]
        exact hport.symm
      · have hlk2 := hsym en hmem
        rw [← h] at hlk2
        have hv : en.1 = b := Option.some.inj (hlk2.symm.trans hab)
        refine hpb ?_
        rw [← hv]
        exact hport.symm
  rw [hrk]
  simpa using hab

theorem remove_nio_ok {sw : ATMSwitch} {p : Int} {nio : NioSpec}
    (h : dictLookup sw.ports p = some nio) :
    sw.remove_nio p = Except.ok
      ({ sw with ports := sw.ports.filter (fun e => decide (e.1 ≠ p)) }, nio) := by
  simp [ATMSwitch.remove_nio, h]

/- ---------------------------------------------------------------------
   Address shapes (spec section 4.3 parsing contract).
--------------------------------------------------------------------- -/

/-- The two address shapes of the parsing contract. -/
inductive AddrShape where
  | vcShape
  | vpShape
deriving DecidableEq, Repr

/-- Shape a single address string parses to: `vcShape` when it matches
the three-group PVC pattern, `vpShape` when it splits into exactly two
`int()`-convertible parts, `none` otherwise. -/
def strShape (s : String) : Option AddrShape :=
  if (matchPvc s).isSome then some AddrShape.vcShape
  else
    match splitColon s with
    | [a, b] =>
        if (pyInt a).isSome && (pyInt b).isSome then some AddrShape.vpShape
        else none
    | _ => none

/-- Whether both strings of a mapping pair parse to the same shape. -/
def sameShapePair (s d : String) : Bool :=
  match strShape s, strShape d with
  | some x, some y => decide (x = y)
  | _, _ => false

theorem matchPvc_split {s : String} {v : String × String × String}
    (h : matchPvc s = some v) : ∃ a b c, splitColon s = [a, b, c] := by
  unfold matchPvc at h
  rcases hsp : splitColon s with _ | ⟨a, _ | ⟨b, _ | ⟨c, _ | ⟨e, t⟩⟩⟩⟩ <;>
    rw [hsp] at h
  · simp at h
  · simp at h
  · simp at h
  · exact ⟨a, b, c, rfl⟩
  · simp at h

theorem parsePair_malformed_of_mismatch {s d : String}
    (h : sameShapePair s d = false) : parsePair s d = PairParse.malformed := by
  cases h1 : matchPvc s with
  | some v1 =>
      cases h2 : matchPvc d with
      | some v2 =>
          exfalso
          have hts : sameShapePair s d = true := by
            simp [sameShapePair, strShape, h1, h2]
          rw [hts] at h
          exact absurd h (by simp)
      | none =>
          obtain ⟨a, b, c, hs3⟩ := matchPvc_split h1
          obtain ⟨s1, s2, s3⟩ := v1
          simp [parsePair, h1, h2, hs3]
  | none =>
      rcases hsp : splitColon s with _ | ⟨a, _ | ⟨b, _ | ⟨c, t⟩⟩⟩
      · simp [parsePair, h1, hsp]
      · simp [parsePair, h1, hsp]
      · rcases hsd : splitColon d with _ | ⟨c, _ | ⟨e, _ | ⟨f, t2⟩⟩⟩
        · simp [parsePair, h1, hsp, hsd]
        · simp [parsePair, h1, hsp, hsd]
        · cases hpa : pyInt a with
          | none => simp [parsePair, h1, hsp, hsd, hpa]
          | some x1 =>
              cases hpb : pyInt b with
              | none => simp [parsePair, h1, hsp, hsd, hpa, hpb]
              | some x2 =>
                  cases hpc : pyInt c with
                  | none => simp [parsePair, h1, hsp, hsd, hpa, hpb, hpc]
                  | some x3 =>
                      cases hpd : pyInt e with
                      | none => simp [parsePair, h1, hsp, hsd, hpa, hpb, hpc, hpd]
                      | some x4 =>
                          exfalso
                          have hmd : matchPvc d = none := by
                            simp [matchPvc, hsd]
                          have hts : sameShapePair s d = true := by
                            simp [sameShapePair, strShape, h1, hmd, hsp, hsd,
                              hpa, hpb, hpc, hpd]
                          rw [hts] at h
                          exact absurd h (by simp)
        · simp [parsePair, h1, hsp, hsd]
      · simp [parsePair, h1, hsp]

theorem applyMapping_error {sw : ATMSwitch} {s d : String} {e : ErrKind}
    (h : applyMapping sw s d = Except.error e) :
    e = ErrKind.malformedAddress := by
  unfold applyMapping at h
  cases hpp : parsePair s d with
  | malformed =>
      rw [hpp] at h
      simp [applyParsed] at h
      exact h.symm
  | pvc sp svpi svci dp dvpi dvci =>
      rw [hpp] at h
      simp only [applyParsed] at h
      split at h
      · split at h <;> simp at h
      · simp at h
  | vp sp svpi dp dvpi =>
      rw [hpp] at h
      simp only [applyParsed] at h
      split at h
      · split at h <;> simp at h
      · simp at h

theorem applyMappings_mismatch :
    ∀ (pairs : List (String × String)) (sw : ATMSwitch),
      (pairs.any (fun pr => !(sameShapePair pr.1 pr.2))) = true →
      (applyMappings sw pairs).2 = some ErrKind.malformedAddress := by
  intro pairs
  induction pairs with
  | nil => intro sw h; simp at h
  | cons pr rest ih =>
      intro sw h
      obtain ⟨s, d⟩ := pr
      cases happ : applyMapping sw s d with
      | error e =>
          have he : e = ErrKind.malformedAddress := applyMapping_error happ
          subst he
          simp [applyMappings, happ]
      | ok sw1 =>
          have hhead : sameShapePair s d = true := by
            cases hss : sameShapePair s d
            · exfalso
              have hm := parsePair_malformed_of_mismatch hss
              unfold applyMapping at happ
              rw [hm] at happ
              simp [applyParsed] at happ
            · rfl
          rw [List.any_cons] at h
          simp only [hhead, Bool.not_true, Bool.false_or] at h
          simp only [applyMappings, happ]
          exact ih sw1 h

/- ---------------------------------------------------------------------
   Registry evaluation helpers.
--------------------------------------------------------------------- -/

theorem switchAt_of_lookup {st : ServerState} {i : Int} {sw : ATMSwitch}
    (h : dictLookup st.switches i = some sw) : switchAt st i = sw := by
  simp [switchAt, h]

theorem switchAt_update {st : ServerState} {i : Int} {sw v : ATMSwitch}
    (h : dictLookup st.switches i = some sw) :
    switchAt { switches := updateAssoc st.switches i v } i = v := by
  simp [switchAt, dictLookup_updateAssoc, h]

/- ---------------------------------------------------------------------
   Claim theorems.
--------------------------------------------------------------------- -/

/-- C7: every per-switch operation (delete, update/rename, allocate UDP
port, attach NIO, detach NIO) invoked with a switch id that does not
resolve to an existing instance fails with the not-found error (the
uncaught Python `KeyError` on `self._atm_switches[atmsw_id]`) and mutates
no state. -/
theorem atmsw_not_found (st : ServerState) :
    (∀ req : DeleteRequest, dictLookup st.switches req.id = none →
      atmsw_delete st req = (st, Outcome.err ErrKind.notFound)) ∧
    (∀ req : UpdateRequest, dictLookup st.switches req.id = none →
      atmsw_update st req = (st, Outcome.err ErrKind.notFound)) ∧
    (∀ (alloc : UdpAllocation) (req : AllocateUdpRequest),
      dictLookup st.switches req.id = none →
      atmsw_allocate_udp_port alloc st req = (st, Outcome.err ErrKind.notFound)) ∧
    (∀ req : AddNioRequest, dictLookup st.switches req.id = none →
      atmsw_add_nio st req = (st, Outcome.err ErrKind.notFound)) ∧
    (∀ req : DeleteNioRequest, dictLookup st.switches req.id = none →
      atmsw_delete_nio st req = (st, Outcome.err ErrKind.notFound)) := by
  refine ⟨?_, ?_, ?_, ?_, ?_⟩
  · intro req h
    simp [atmsw_delete, h]
  · intro req h
    simp [atmsw_update, h]
  · intro alloc req h
    simp [atmsw_allocate_udp_port, h]
  · intro req h
    simp [atmsw_add_nio, h]
  · intro req h
    simp [atmsw_delete_nio, h]

/-- C7 witness: on the empty registry every handler reports not-found and
returns the state unchanged. -/
theorem atmsw_not_found_witness :
    atmsw_delete { switches := [] } { id := 1 } =
      ({ switches := [] }, Outcome.err ErrKind.notFound) ∧
    atmsw_update { switches := [] } { id := 1, name := none } =
      ({ switches := [] }, Outcome.err ErrKind.notFound) ∧
    atmsw_allocate_udp_port { lhost := ("127.0.0.1"), lport := 10000 }
        { switches := [] } { id := 1, port_id := 0 } =
      ({ switches := [] }, Outcome.err ErrKind.notFound) ∧
    atmsw_add_nio { switches := [] }
        { id := 1, port := 0, port_id := 0, nio := NioSpec.nio_null,
          mappings := [] } =
      ({ switches := [] }, Outcome.err ErrKind.notFound) ∧
    atmsw_delete_nio { switches := [] } { id := 1, port := 0 } =
      ({ switches := [] }, Outcome.err ErrKind.notFound) := by
  have h := atmsw_not_found { switches := [] }
  exact ⟨h.1 _ (by decide), h.2.1 _ (by decide), h.2.2.1 _ _ (by decide),
    h.2.2.2.1 _ (by decide), h.2.2.2.2 _ (by decide)⟩

/-- C9: an attach-NIO request whose nio kind is not one of the seven
recognized kinds fails with the unsupported-NIO error before any mutation:
no endpoint is attached and no mapping applied (the state is returned
unchanged). -/
theorem atmsw_unsupported_nio (st : ServerState) (req : AddNioRequest)
    (atmsw : ATMSwitch) (k : String)
    (hlook : dictLookup st.switches req.id = some atmsw)
    (hk : req.nio = NioSpec.nio_unknown k) :
    atmsw_add_nio st req = (st, Outcome.err ErrKind.unsupportedNio) := by
  simp [atmsw_add_nio, hlook, hk, createNio]

/-- C9 witness at a concrete unrecognized kind. -/
theorem atmsw_unsupported_nio_witness :
    atmsw_add_nio
        { switches := [(1, { name := ("S"), ports := [], mapping := [] })] }
        { id := 1, port := 0, port_id := 0,
          nio := NioSpec.nio_unknown ("NIO_FOO"), mappings := [] } =
      ({ switches := [(1, { name := ("S"), ports := [], mapping := [] })] },
        Outcome.err ErrKind.unsupportedNio) :=
  atmsw_unsupported_nio _ _ { name := ("S"), ports := [], mapping := [] }
    ("NIO_FOO") (by decide) (by decide)

/-- C10: the update (rename) handler is an accepting no-op whenever the
request carries no name field or a name equal to the switch's current
name — it echoes the request and leaves all state unchanged — and it
renames exactly when the requested name differs. -/
theorem atmsw_update_same_name_noop (st : ServerState) (req : UpdateRequest)
    (atmsw : ATMSwitch)
    (hlook : dictLookup st.switches req.id = some atmsw) :
    ((req.name = none ∨ req.name = some atmsw.name) →
      atmsw_update st req = (st, Outcome.ok req)) ∧
    (∀ n : String, req.name = some n → ¬ atmsw.name = n →
      atmsw_update st req =
        ({ switches := updateAssoc st.switches req.id { atmsw with name := n } },
          Outcome.ok req)) := by
  constructor
  · intro h
    rcases h with h | h <;> simp [atmsw_update, hlook, h]
  · intro n hn hne
    simp [atmsw_update, hlook, hn, hne]

/-- C10 witness: updating with the current name echoes the request and
changes nothing; updating with a fresh name stores the renamed switch. -/
theorem atmsw_update_same_name_noop_witness :
    atmsw_update
        { switches := [(1, { name := ("S"), ports := [], mapping := [] })] }
        { id := 1, name := some ("S") } =
      ({ switches := [(1, { name := ("S"), ports := [], mapping := [] })] },
        Outcome.ok { id := 1, name := some ("S") }) ∧
    atmsw_update
        { switches := [(1, { name := ("S"), ports := [], mapping := [] })] }
        { id := 1, name := some ("T") } =
      ({ switches := updateAssoc
            [(1, { name := ("S"), ports := [], mapping := [] })] 1
            { name := ("T"), ports := [], mapping := [] } },
        Outcome.ok { id := 1, name := some ("T") }) :=
  ⟨(atmsw_update_same_name_noop _ _ { name := ("S"), ports := [], mapping := [] }
      (by decide)).1 (Or.inr (by decide)),
   (atmsw_update_same_name_noop _ _ { name := ("S"), ports := [], mapping := [] }
      (by decide)).2 ("T") (by decide) (by decide)⟩

/-- C5: an attach-NIO mapping pair whose destination port has no attached
endpoint is silently skipped: the switch (in particular its mapping table)
is returned unchanged and no error is produced, for both the
virtual-channel and the virtual-path shapes. -/
theorem atmsw_skip_unattached_destination (sw : ATMSwitch) (s d : String) :
    (∀ sp svpi svci dp dvpi dvci : Int,
      parsePair s d = PairParse.pvc sp svpi svci dp dvpi dvci →
      sw.has_port dp = false →
      applyMapping sw s d = Except.ok sw) ∧
    (∀ sp svpi dp dvpi : Int,
      parsePair s d = PairParse.vp sp svpi dp dvpi →
      sw.has_port dp = false →
      applyMapping sw s d = Except.ok sw) := by
  constructor
  · intro sp svpi svci dp dvpi dvci hpp hport
    unfold applyMapping
    rw [hpp]
    simp [applyParsed, hport]
  · intro sp svpi dp dvpi hpp hport
    unfold applyMapping
    rw [hpp]
    simp [applyParsed, hport]

/-- C5 witness (spec section 8 scenario): destination port 3 has no
attached endpoint, the pair is skipped and the switch unchanged. -/
theorem atmsw_skip_unattached_destination_witness :
    applyMapping
        { name := ("S"), ports := [(1, NioSpec.nio_null), (2, NioSpec.nio_null)],
          mapping := [] } ("1:0:5") ("3:0:5") =
      Except.ok
        { name := ("S"), ports := [(1, NioSpec.nio_null), (2, NioSpec.nio_null)],
          mapping := [] } :=
  (atmsw_skip_unattached_destination
      { name := ("S"), ports := [(1, NioSpec.nio_null), (2, NioSpec.nio_null)],
        mapping := [] } ("1:0:5") ("3:0:5")).1 1 0 5 3 0 5
    (by decide) (by decide)

/-- C2 counterexample: the source address `0:1:2` is already a mapping
key and the destination port 2 has an attached endpoint, yet the
attach-NIO request succeeds and echoes the request — the caller receives
no mapping-collision error; the table is left unchanged and only the new
endpoint is attached. -/
theorem atmsw_collision_counterexample :
    atmsw_add_nio
        { switches := [(5,
            { name := ("ATM1"),
              ports := [(0, NioSpec.nio_null), (1, NioSpec.nio_null),
                (2, NioSpec.nio_null)],
              mapping := [(Addr.vc 0 1 2, Addr.vc 1 1 2),
                (Addr.vc 1 1 2, Addr.vc 0 1 2)] })] }
        { id := 5, port := 3, port_id := 0, nio := NioSpec.nio_null,
          mappings := [(("0:1:2"), ("2:5:6"))] } =
      ({ switches := [(5,
            { name := ("ATM1"),
              ports := [(0, NioSpec.nio_null), (1, NioSpec.nio_null),
                (2, NioSpec.nio_null), (3, NioSpec.nio_null)],
              mapping := [(Addr.vc 0 1 2, Addr.vc 1 1 2),
                (Addr.vc 1 1 2, Addr.vc 0 1 2)] })] },
        Outcome.ok { id := 5, port := 3, port_id := 0, nio := NioSpec.nio_null,
                     mappings := [(("0:1:2"), ("2:5:6"))] }) := by decide

/-- C2 amended: an attach-NIO mapping pair whose source or destination
address is already a mapping key leaves the mapping table unchanged, but
no error is reported: the pair is silently skipped (the collision guard of
atmsw.py lines 231-232 and 240 has no else branch) and the request
succeeds. -/
theorem atmsw_collision_silent_skip (sw : ATMSwitch) (s d : String) :
    (∀ sp svpi svci dp dvpi dvci : Int,
      parsePair s d = PairParse.pvc sp svpi svci dp dvpi dvci →
      ((dictLookup sw.mapping (Addr.vc sp svpi svci)).isSome = true ∨
       (dictLookup sw.mapping (Addr.vc dp dvpi dvci)).isSome = true) →
      applyMapping sw s d = Except.ok sw) ∧
    (∀ sp svpi dp dvpi : Int,
      parsePair s d = PairParse.vp sp svpi dp dvpi →
      ((dictLookup sw.mapping (Addr.vp sp svpi)).isSome = true ∨
       (dictLookup sw.mapping (Addr.vp dp dvpi)).isSome = true) →
      applyMapping sw s d = Except.ok sw) := by
  constructor
  · intro sp svpi svci dp dvpi dvci hpp hcol
    unfold applyMapping
    rw [hpp]
    cases hport : sw.has_port dp
    · simp [applyParsed, hport]
    · have hg : ((dictLookup sw.mapping (Addr.vc sp svpi svci)).isNone &&
          (dictLookup sw.mapping (Addr.vc dp dvpi dvci)).isNone) = false := by
        rcases hcol with h | h
        · obtain ⟨v, hv⟩ := Option.isSome_iff_exists.mp h
          simp [hv]
        · obtain ⟨v, hv⟩ := Option.isSome_iff_exists.mp h
          simp [hv]
      simp [applyParsed, hport, hg]
  · intro sp svpi dp dvpi hpp hcol
    unfold applyMapping
    rw [hpp]
    cases hport : sw.has_port dp
    · simp [applyParsed, hport]
    · have hg : ((dictLookup sw.mapping (Addr.vp sp svpi)).isNone &&
          (dictLookup sw.mapping (Addr.vp dp dvpi)).isNone) = false := by
        rcases hcol with h | h
        · obtain ⟨v, hv⟩ := Option.isSome_iff_exists.mp h
          simp [hv]
        · obtain ⟨v, hv⟩ := Option.isSome_iff_exists.mp h
          simp [hv]
      simp [applyParsed, hport, hg]

/-- C2 witness: colliding source address, destination port attached, pair
skipped with the switch unchanged. -/
theorem atmsw_collision_silent_skip_witness :
    applyMapping
        { name := ("ATM1"),
          ports := [(0, NioSpec.nio_null), (1, NioSpec.nio_null),
            (2, NioSpec.nio_null)],
          mapping := [(Addr.vc 0 1 2, Addr.vc 1 1 2),
            (Addr.vc 1 1 2, Addr.vc 0 1 2)] } ("0:1:2") ("2:5:6") =
      Except.ok
        { name := ("ATM1"),
          ports := [(0, NioSpec.nio_null), (1, NioSpec.nio_null),
            (2, NioSpec.nio_null)],
          mapping := [(Addr.vc 0 1 2, Addr.vc 1 1 2),
            (Addr.vc 1 1 2, Addr.vc 0 1 2)] } :=
  (atmsw_collision_silent_skip
      { name := ("ATM1"),
        ports := [(0, NioSpec.nio_null), (1, NioSpec.nio_null),
          (2, NioSpec.nio_null)],
        mapping := [(Addr.vc 0 1 2, Addr.vc 1 1 2),
          (Addr.vc 1 1 2, Addr.vc 0 1 2)] } ("0:1:2") ("2:5:6")).1
    0 1 2 2 5 6 (by decide) (Or.inl (by decide))

/-- C6 counterexample: two multi-step operations report an error yet leave
a partial mutation behind.  Detach-NIO on port 1 (which has no endpoint)
first removes the symmetric mapping pair sourced at port 1, then fails in
`remove_nio`; the error is reported with the mapping table already
emptied.  Attach-NIO with a malformed pair attaches the endpoint, then the
parse failure aborts the request with the endpoint left attached. -/
theorem atmsw_atomicity_counterexample :
    (atmsw_delete_nio
        { switches := [(9,
            { name := ("S"), ports := [(2, NioSpec.nio_null)],
              mapping := [(Addr.vp 1 0, Addr.vp 2 0),
                (Addr.vp 2 0, Addr.vp 1 0)] })] }
        { id := 9, port := 1 } =
      ({ switches := [(9,
            { name := ("S"), ports := [(2, NioSpec.nio_null)],
              mapping := [] })] },
        Outcome.err ErrKind.notFound)) ∧
    (atmsw_add_nio
        { switches := [(9, { name := ("S"), ports := [], mapping := [] })] }
        { id := 9, port := 1, port_id := 0, nio := NioSpec.nio_null,
          mappings := [(("x"), ("y"))] } =
      ({ switches := [(9,
            { name := ("S"), ports := [(1, NioSpec.nio_null)],
              mapping := [] })] },
        Outcome.err ErrKind.malformedAddress)) ∧
    ¬ ({ switches := [(9,
          { name := ("S"), ports := [(2, NioSpec.nio_null)],
            mapping := [] })] } : ServerState) =
        { switches := [(9,
            { name := ("S"), ports := [(2, NioSpec.nio_null)],
              mapping := [(Addr.vp 1 0, Addr.vp 2 0),
                (Addr.vp 2 0, Addr.vp 1 0)] })] } := by
  refine ⟨by decide, by decide, by decide⟩

/-- C6 amended: an attach-NIO failure that occurs before the endpoint is
attached — unknown switch id, unsupported NIO kind, or port already in
use — leaves no mutation behind; a failure while applying circuit
mappings, however, is reported only after the endpoint has been attached
(and earlier pairs applied), leaving those mutations in place. -/
theorem atmsw_pre_attach_atomicity (st : ServerState) (req : AddNioRequest) :
    (dictLookup st.switches req.id = none →
      atmsw_add_nio st req = (st, Outcome.err ErrKind.notFound)) ∧
    (∀ (atmsw : ATMSwitch) (k : String),
      dictLookup st.switches req.id = some atmsw →
      req.nio = NioSpec.nio_unknown k →
      atmsw_add_nio st req = (st, Outcome.err ErrKind.unsupportedNio)) ∧
    (∀ (atmsw : ATMSwitch) (nio : NioSpec),
      dictLookup st.switches req.id = some atmsw →
      createNio req.nio = some nio →
      (dictLookup atmsw.ports req.port).isSome = true →
      atmsw_add_nio st req = (st, Outcome.err ErrKind.portInUse)) := by
  refine ⟨?_, ?_, ?_⟩
  · intro h
    simp [atmsw_add_nio, h]
  · intro atmsw k h hk
    simp [atmsw_add_nio, h, hk, createNio]
  · intro atmsw nio h hn hp
    simp [atmsw_add_nio, h, hn, ATMSwitch.add_nio, hp]

/-- C6 witness: attaching to an occupied port fails with port-in-use and
the state is unchanged. -/
theorem atmsw_pre_attach_atomicity_witness :
    atmsw_add_nio
        { switches := [(1,
            { name := ("S"), ports := [(4, NioSpec.nio_null)],
              mapping := [] })] }
        { id := 1, port := 4, port_id := 0, nio := NioSpec.nio_null,
          mappings := [] } =
      ({ switches := [(1,
          { name := ("S"), ports := [(4, NioSpec.nio_null)],
            mapping := [] })] },
        Outcome.err ErrKind.portInUse) :=
  (atmsw_pre_attach_atomicity _ _).2.2
    { name := ("S"), ports := [(4, NioSpec.nio_null)], mapping := [] }
    NioSpec.nio_null (by decide) (by decide) (by decide)

/-- C4: a mapping pair whose source and destination strings do not parse
to the same shape (both matching the three-group `P:VPI:VCI` pattern, or
both splitting into two `int()`-convertible `P:VPI` parts) is rejected
with the malformed-address error (Python's `ValueError`) before any
mutation, so mixed shapes are never coerced into a mapping; at request
level an attach-NIO whose mappings contain such a pair reports that
error. -/
theorem atmsw_address_shape_contract :
    (∀ (sw : ATMSwitch) (s d : String), sameShapePair s d = false →
      applyMapping sw s d = Except.error ErrKind.malformedAddress) ∧
    (∀ (st : ServerState) (req : AddNioRequest) (atmsw : ATMSwitch)
        (nio : NioSpec),
      dictLookup st.switches req.id = some atmsw →
      createNio req.nio = some nio →
      (dictLookup atmsw.ports req.port).isSome = false →
      (req.mappings.any (fun pr => !(sameShapePair pr.1 pr.2))) = true →
      (atmsw_add_nio st req).2 = Outcome.err ErrKind.malformedAddress) := by
  constructor
  · intro sw s d h
    unfold applyMapping
    rw [parsePair_malformed_of_mismatch h]
    rfl
  · intro st req atmsw nio hlook hnio hport hmm
    have hadd : atmsw.add_nio nio req.port =
        Except.ok { atmsw with ports := atmsw.ports ++ [(req.port, nio)] } := by
      simp [ATMSwitch.add_nio, hport]
    have hres := applyMappings_mismatch req.mappings
      { atmsw with ports := atmsw.ports ++ [(req.port, nio)] } hmm
    simp only [atmsw_add_nio, hlook, hnio, hadd]
    cases hap : applyMappings
        { atmsw with ports := atmsw.ports ++ [(req.port, nio)] }
        req.mappings with
    | mk sw2 eopt =>
        rw [hap] at hres
        simp only at hres
        subst hres
        simp

/-- C4 witness: the pair `1:2:3` / `4:5` mixes a channel shape with a path
shape and is rejected with the malformed-address error, both at the pair
level and at the request level. -/
theorem atmsw_address_shape_contract_witness :
    applyMapping { name := ("S"), ports := [], mapping := [] }
        ("1:2:3") ("4:5") = Except.error ErrKind.malformedAddress ∧
    (atmsw_add_nio
        { switches := [(1, { name := ("S"), ports := [], mapping := [] })] }
        { id := 1, port := 0, port_id := 0, nio := NioSpec.nio_null,
          mappings := [(("1:2:3"), ("4:5"))] }).2 =
      Outcome.err ErrKind.malformedAddress :=
  ⟨atmsw_address_shape_contract.1 { name := ("S"), ports := [], mapping := [] }
      ("1:2:3") ("4:5") (by decide),
   atmsw_address_shape_contract.2 _ _
      { name := ("S"), ports := [], mapping := [] } NioSpec.nio_null
      (by decide) (by decide) (by decide) (by decide)⟩

/-- C8 counterexample: deleting switch 7 succeeds, echoes the request and
empties the node's tables, but the id is never removed from
`self._atm_switches`: it still resolves afterwards, and a subsequent
per-switch operation on it does not fail with the not-found error. -/
theorem atmsw_delete_keeps_id_counterexample :
    (atmsw_delete
        { switches := [(7,
            { name := ("S"), ports := [(1, NioSpec.nio_null)],
              mapping := [(Addr.vp 1 0, Addr.vp 1 1),
                (Addr.vp 1 1, Addr.vp 1 0)] })] }
        { id := 7 } =
      ({ switches := [(7, { name := ("S"), ports := [], mapping := [] })] },
        Outcome.ok { id := 7 })) ∧
    ((dictLookup
        (atmsw_delete
          { switches := [(7,
              { name := ("S"), ports := [(1, NioSpec.nio_null)],
                mapping := [(Addr.vp 1 0, Addr.vp 1 1),
                  (Addr.vp 1 1, Addr.vp 1 0)] })] }
          { id := 7 }).1.switches 7).isSome = true) ∧
    ((atmsw_delete
        (atmsw_delete
          { switches := [(7,
              { name := ("S"), ports := [(1, NioSpec.nio_null)],
                mapping := [(Addr.vp 1 0, Addr.vp 1 1),
                  (Addr.vp 1 1, Addr.vp 1 0)] })] }
          { id := 7 }).1
        { id := 7 }).2 ≠ Outcome.err ErrKind.notFound) := by
  refine ⟨by decide, by decide, by decide⟩

/-- C8 amended: deleting a switch detaches and closes every attached
endpoint and discards its mapping table (the stored node is emptied) and
the response echoes the request, but the switch id is not released: the id
still resolves to the emptied instance afterwards, so a subsequent
per-switch operation does not fail with the not-found error. -/
theorem atmsw_delete_clears_switch (st : ServerState) (req : DeleteRequest)
    (atmsw : ATMSwitch)
    (hlook : dictLookup st.switches req.id = some atmsw) :
    atmsw_delete st req =
      ({ switches := updateAssoc st.switches req.id
          { atmsw with ports := [], mapping := [] } }, Outcome.ok req) ∧
    dictLookup (atmsw_delete st req).1.switches req.id =
      some { atmsw with ports := [], mapping := [] } := by
  have h1 : atmsw_delete st req =
      ({ switches := updateAssoc st.switches req.id
          { atmsw with ports := [], mapping := [] } }, Outcome.ok req) := by
    simp [atmsw_delete, hlook, ATMSwitch.deleteNode]
  refine ⟨h1, ?_⟩
  rw [h1]
  simp [dictLookup_updateAssoc, hlook]

/-- C8 witness at a concrete one-switch registry. -/
theorem atmsw_delete_clears_switch_witness :
    atmsw_delete
        { switches := [(7,
            { name := ("S"), ports := [(1, NioSpec.nio_null)],
              mapping := [(Addr.vp 1 0, Addr.vp 1 1),
                (Addr.vp 1 1, Addr.vp 1 0)] })] }
        { id := 7 } =
      ({ switches := updateAssoc
          [(7, { name := ("S"), ports := [(1, NioSpec.nio_null)],
                 mapping := [(Addr.vp 1 0, Addr.vp 1 1),
                   (Addr.vp 1 1, Addr.vp 1 0)] })] 7
          { name := ("S"), ports := [], mapping := [] } },
        Outcome.ok { id := 7 }) ∧
    dictLookup
        (atmsw_delete
          { switches := [(7,
              { name := ("S"), ports := [(1, NioSpec.nio_null)],
                mapping := [(Addr.vp 1 0, Addr.vp 1 1),
                  (Addr.vp 1 1, Addr.vp 1 0)] })] }
          { id := 7 }).1.switches 7 =
      some { name := ("S"), ports := [], mapping := [] } :=
  atmsw_delete_clears_switch _ _
    { name := ("S"), ports := [(1, NioSpec.nio_null)],
      mapping := [(Addr.vp 1 0, Addr.vp 1 1), (Addr.vp 1 1, Addr.vp 1 0)] }
    (by decide)

theorem noPortRefs_filter_removedKeys {port : Int} {m : List (Addr × Addr)}
    (hsym : symPairsP m) :
    noPortRefs port (m.filter (fun e => !(removedKeys port m e.1))) = true := by
  rw [noPortRefs, List.all_eq_true]
  intro e he
  rw [List.mem_filter] at he
  obtain ⟨hmem, hkeep⟩ := he
  have hkeepf : removedKeys port m e.1 = false := by
    cases h0 : removedKeys port m e.1
    · rfl
    · rw [h0] at hkeep
      simp at hkeep
  rw [Bool.and_eq_true]
  constructor
  · by_cases hp : e.1.portOf = port
    · exfalso
      have h1 : removedKeys port m e.1 = true :=
        removedKeys_of_mem hmem hp.symm (Or.inl rfl)
      rw [h1] at hkeepf
      exact absurd hkeepf (by simp)
    · simp [hp]
  · by_cases hp : e.2.portOf = port
    · exfalso
      have hl := hsym e hmem
      have hpair : (e.2, e.1) ∈ m := dictLookup_mem hl
      have h1 : removedKeys port m e.1 = true :=
        removedKeys_of_mem hpair hp.symm (Or.inr rfl)
      rw [h1] at hkeepf
      exact absurd hkeepf (by simp)
    · simp [hp]

theorem remove_nio_mapping {sw sw2 : ATMSwitch} {p : Int} {nio : NioSpec}
    (h : sw.remove_nio p = Except.ok (sw2, nio)) :
    sw2.mapping = sw.mapping := by
  unfold ATMSwitch.remove_nio at h
  cases hlp : dictLookup sw.ports p <;> rw [hlp] at h
  · simp at h
  · injection h with h1
    have h2 := congrArg (fun z => (Prod.fst z).mapping) h1
    simpa using h2.symm

/-- C3: detaching a port of an ATM switch whose mapping table is symmetric
and shape-consistent removes, before the endpoint itself, every mapping
entry sourced at that port together with its symmetric counterpart, so
that afterwards no mapping entry carries the detached port on either side;
the endpoint is removed from the port table and the request is echoed. -/
theorem atmsw_detach_cleanup (st : ServerState) (req : DeleteNioRequest)
    (atmsw : ATMSwitch)
    (hlook : dictLookup st.switches req.id = some atmsw)
    (hsym : symPairsB atmsw.mapping = true)
    (hwf : wfShapesB atmsw.mapping = true)
    (hport : (dictLookup atmsw.ports req.port).isSome = true) :
    (atmsw_delete_nio st req).2 = Outcome.ok req ∧
    noPortRefs req.port
      (switchAt (atmsw_delete_nio st req).1 req.id).mapping = true ∧
    dictLookup (switchAt (atmsw_delete_nio st req).1 req.id).ports
      req.port = none := by
  have hsymP := (symPairsB_iff _).mp hsym
  have hwfP := (wfShapesB_iff _).mp hwf
  obtain ⟨nio, hnio⟩ := Option.isSome_iff_exists.mp hport
  have hloop := removeMappingsLoop_eq req.port atmsw.mapping atmsw hwfP
  have hnio1 : dictLookup
      ({ atmsw with
          mapping := atmsw.mapping.filter
            (fun e => !(removedKeys req.port atmsw.mapping e.1)) } : ATMSwitch).ports
      req.port = some nio := hnio
  have hrm := remove_nio_ok hnio1
  have hred : atmsw_delete_nio st req =
      ({ switches := updateAssoc st.switches req.id
          { name := atmsw.name,
            ports := atmsw.ports.filter (fun e => decide (e.1 ≠ req.port)),
            mapping := atmsw.mapping.filter
              (fun e => !(removedKeys req.port atmsw.mapping e.1)) } },
        Outcome.ok req) := by
    simp only [atmsw_delete_nio, hlook, hloop, hrm]
  rw [hred]
  have hsa : switchAt
      { switches := updateAssoc st.switches req.id
          { name := atmsw.name,
            ports := atmsw.ports.filter (fun e => decide (e.1 ≠ req.port)),
            mapping := atmsw.mapping.filter
              (fun e => !(removedKeys req.port atmsw.mapping e.1)) } } req.id =
      { name := atmsw.name,
        ports := atmsw.ports.filter (fun e => decide (e.1 ≠ req.port)),
        mapping := atmsw.mapping.filter
          (fun e => !(removedKeys req.port atmsw.mapping e.1)) } :=
    switchAt_update hlook
  refine ⟨rfl, ?_, ?_⟩
  · rw [hsa]
    exact noPortRefs_filter_removedKeys hsymP
  · rw [hsa]
    rw [dictLookup_filter_keyed atmsw.ports _
      (fun x => decide (x ≠ req.port)) (fun _ => rfl) req.port]
    simp

/-- C3 witness (spec section 8 scenario): detach port 1 on a switch with
a symmetric path pair between ports 1 and 2; both entries vanish, port 1
is detached, the request is echoed. -/
theorem atmsw_detach_cleanup_witness :
    (atmsw_delete_nio
        { switches := [(3,
            { name := ("S"),
              ports := [(1, NioSpec.nio_null), (2, NioSpec.nio_null)],
              mapping := [(Addr.vp 1 0, Addr.vp 2 0),
                (Addr.vp 2 0, Addr.vp 1 0)] })] }
        { id := 3, port := 1 }).2 = Outcome.ok { id := 3, port := 1 } ∧
    noPortRefs 1
      (switchAt (atmsw_delete_nio
        { switches := [(3,
            { name := ("S"),
              ports := [(1, NioSpec.nio_null), (2, NioSpec.nio_null)],
              mapping := [(Addr.vp 1 0, Addr.vp 2 0),
                (Addr.vp 2 0, Addr.vp 1 0)] })] }
        { id := 3, port := 1 }).1 3).mapping = true ∧
    dictLookup
      (switchAt (atmsw_delete_nio
        { switches := [(3,
            { name := ("S"),
              ports := [(1, NioSpec.nio_null), (2, NioSpec.nio_null)],
              mapping := [(Addr.vp 1 0, Addr.vp 2 0),
                (Addr.vp 2 0, Addr.vp 1 0)] })] }
        { id := 3, port := 1 }).1 3).ports 1 = none :=
  atmsw_detach_cleanup _ _
    { name := ("S"), ports := [(1, NioSpec.nio_null), (2, NioSpec.nio_null)],
      mapping := [(Addr.vp 1 0, Addr.vp 2 0), (Addr.vp 2 0, Addr.vp 1 0)] }
    (by decide) (by decide) (by decide) (by decide)

theorem dictLookup_insertPair_left {m : List (Addr × Addr)} {a b : Addr}
    (ha : dictLookup m a = none) :
    dictLookup ((m ++ [(a, b)]) ++ [(b, a)]) a = some b := by
  apply dictLookup_append_some
  rw [dictLookup_append_none _ ha]
  simp [dictLookup]

theorem dictLookup_insertPair_right {m : List (Addr × Addr)} {a b : Addr}
    (ha : dictLookup m a = none) (hb : dictLookup m b = none) :
    dictLookup ((m ++ [(a, b)]) ++ [(b, a)]) b = some a := by
  by_cases hab : a = b
  · subst hab
    apply dictLookup_append_some
    rw [dictLookup_append_none _ ha]
    simp [dictLookup]
  · have h1 : dictLookup (m ++ [(a, b)]) b = none := by
      rw [dictLookup_append_none _ hb]
      simp [dictLookup, hab]
    rw [dictLookup_append_none _ h1]
    simp [dictLookup]

/-- C1: symmetric-pair invariant of the circuit-mapping table.
Conjunct (i) (resp. (ii)): a successful application of a virtual-channel
(resp. virtual-path) mapping pair during attach-NIO inserts both
directions, so immediately afterwards each address looks up to the other.
Conjunct (iii): the attach-NIO handler preserves table symmetry and keeps
every existing entry intact.  Conjunct (iv): the detach-NIO handler
preserves table symmetry (given the dict-key invariants), and keeps every
entry whose pair does not involve the detached port. -/
theorem atmsw_symmetric_pairs :
    (∀ (sw : ATMSwitch) (s d : String) (sp svpi svci dp dvpi dvci : Int),
      parsePair s d = PairParse.pvc sp svpi svci dp dvpi dvci →
      sw.has_port dp = true →
      dictLookup sw.mapping (Addr.vc sp svpi svci) = none →
      dictLookup sw.mapping (Addr.vc dp dvpi dvci) = none →
      applyMapping sw s d = Except.ok
        ((sw.map_pvc sp svpi svci dp dvpi dvci).map_pvc
          dp dvpi dvci sp svpi svci) ∧
      dictLookup ((sw.map_pvc sp svpi svci dp dvpi dvci).map_pvc
          dp dvpi dvci sp svpi svci).mapping (Addr.vc sp svpi svci) =
        some (Addr.vc dp dvpi dvci) ∧
      dictLookup ((sw.map_pvc sp svpi svci dp dvpi dvci).map_pvc
          dp dvpi dvci sp svpi svci).mapping (Addr.vc dp dvpi dvci) =
        some (Addr.vc sp svpi svci)) ∧
    (∀ (sw : ATMSwitch) (s d : String) (sp svpi dp dvpi : Int),
      parsePair s d = PairParse.vp sp svpi dp dvpi →
      sw.has_port dp = true →
      dictLookup sw.mapping (Addr.vp sp svpi) = none →
      dictLookup sw.mapping (Addr.vp dp dvpi) = none →
      applyMapping sw s d = Except.ok
        ((sw.map_vp sp svpi dp dvpi).map_vp dp dvpi sp svpi) ∧
      dictLookup ((sw.map_vp sp svpi dp dvpi).map_vp
          dp dvpi sp svpi).mapping (Addr.vp sp svpi) = some (Addr.vp dp dvpi) ∧
      dictLookup ((sw.map_vp sp svpi dp dvpi).map_vp
          dp dvpi sp svpi).mapping (Addr.vp dp dvpi) = some (Addr.vp sp svpi)) ∧
    (∀ (st : ServerState) (req : AddNioRequest) (atmsw : ATMSwitch),
      dictLookup st.switches req.id = some atmsw →
      symPairsB atmsw.mapping = true →
      symPairsB (switchAt (atmsw_add_nio st req).1 req.id).mapping = true ∧
      (∀ a b : Addr, dictLookup atmsw.mapping a = some b →
        dictLookup (switchAt (atmsw_add_nio st req).1 req.id).mapping a =
          some b)) ∧
    (∀ (st : ServerState) (req : DeleteNioRequest) (atmsw : ATMSwitch),
      dictLookup st.switches req.id = some atmsw →
      symPairsB atmsw.mapping = true →
      keysNodup atmsw.mapping →
      wfShapesB atmsw.mapping = true →
      symPairsB (switchAt (atmsw_delete_nio st req).1 req.id).mapping = true ∧
      (∀ a b : Addr, dictLookup atmsw.mapping a = some b →
        ¬ a.portOf = req.port → ¬ b.portOf = req.port →
        dictLookup (switchAt (atmsw_delete_nio st req).1 req.id).mapping a =
          some b)) := by
  refine ⟨?_, ?_, ?_, ?_⟩
  · intro sw s d sp svpi svci dp dvpi dvci hpp hport ha hb
    have hg : ((dictLookup sw.mapping (Addr.vc sp svpi svci)).isNone &&
        (dictLookup sw.mapping (Addr.vc dp dvpi dvci)).isNone) = true := by
      simp [ha, hb]
    refine ⟨?_, ?_, ?_⟩
    · unfold applyMapping
      rw [hpp]
      simp [applyParsed, hport, hg]
    · simp only [ATMSwitch.map_pvc]
      exact dictLookup_insertPair_left ha
    · simp only [ATMSwitch.map_pvc]
      exact dictLookup_insertPair_right ha hb
  · intro sw s d sp svpi dp dvpi hpp hport ha hb
    have hg : ((dictLookup sw.mapping (Addr.vp sp svpi)).isNone &&
        (dictLookup sw.mapping (Addr.vp dp dvpi)).isNone) = true := by
      simp [ha, hb]
    refine ⟨?_, ?_, ?_⟩
    · unfold applyMapping
      rw [hpp]
      simp [applyParsed, hport, hg]
    · simp only [ATMSwitch.map_vp]
      exact dictLookup_insertPair_left ha
    · simp only [ATMSwitch.map_vp]
      exact dictLookup_insertPair_right ha hb
  · intro st req atmsw hlook hsym
    have hsymP := (symPairsB_iff _).mp hsym
    cases hnio : createNio req.nio with
    | none =>
        have hres : atmsw_add_nio st req =
            (st, Outcome.err ErrKind.unsupportedNio) := by
          simp [atmsw_add_nio, hlook, hnio]
        constructor
        · rw [hres]
          simpa [switchAt_of_lookup hlook] using hsym
        · intro a b hab
          rw [hres]
          simpa [switchAt_of_lookup hlook] using hab
    | some nio =>
        cases hadd : atmsw.add_nio nio req.port with
        | error e =>
            have hres : atmsw_add_nio st req = (st, Outcome.err e) := by
              simp [atmsw_add_nio, hlook, hnio, hadd]
            constructor
            · rw [hres]
              simpa [switchAt_of_lookup hlook] using hsym
            · intro a b hab
              rw [hres]
              simpa [switchAt_of_lookup hlook] using hab
        | ok sw1 =>
            obtain ⟨hsw1, hfree⟩ := add_nio_ok hadd
            have hmap1 : sw1.mapping = atmsw.mapping := by rw [hsw1]
            cases hap : applyMappings sw1 req.mappings with
            | mk sw2 eopt =>
                have hsym2 : symPairsP sw2.mapping := by
                  have h0 := applyMappings_symPairs req.mappings sw1
                    (by rw [hmap1]; exact hsymP)
                  rw [hap] at h0
                  exact h0
                have hpers : ∀ a b : Addr, dictLookup atmsw.mapping a = some b →
                    dictLookup sw2.mapping a = some b := by
                  intro a b hab
                  have h0 := applyMappings_lookup_persist req.mappings sw1 a b
                    (by rw [hmap1]; exact hab)
                  rw [hap] at h0
                  exact h0
                have hres : (atmsw_add_nio st req).1 =
                    { switches := updateAssoc st.switches req.id sw2 } := by
                  cases eopt <;> simp [atmsw_add_nio, hlook, hnio, hadd, hap]
                constructor
                · rw [hres, switchAt_update hlook]
                  exact (symPairsB_iff _).mpr hsym2
                · intro a b hab
                  rw [hres, switchAt_update hlook]
                  exact hpers a b hab
  · intro st req atmsw hlook hsym hnd hwf
    have hsymP := (symPairsB_iff _).mp hsym
    have hwfP := (wfShapesB_iff _).mp hwf
    have hloop := removeMappingsLoop_eq req.port atmsw.mapping atmsw hwfP
    cases hrm : (({ atmsw with
        mapping := atmsw.mapping.filter
          (fun e => !(removedKeys req.port atmsw.mapping e.1)) } :
        ATMSwitch).remove_nio req.port) with
    | error e =>
        have hres : (atmsw_delete_nio st req).1 =
            { switches := updateAssoc st.switches req.id
                { atmsw with
                  mapping := atmsw.mapping.filter
                    (fun e => !(removedKeys req.port atmsw.mapping e.1)) } } := by
          simp [atmsw_delete_nio, hlook, hloop, hrm]
        constructor
        · rw [hres, switchAt_update hlook]
          exact (symPairsB_iff _).mpr (symPairsP_filter_removedKeys hsymP hnd)
        · intro a b hab hpa hpb
          rw [hres, switchAt_update hlook]
          exact dictLookup_filter_removedKeys_persist hsymP hab hpa hpb
    | ok pr =>
        obtain ⟨sw2, nio⟩ := pr
        have hm2 : sw2.mapping = atmsw.mapping.filter
            (fun e => !(removedKeys req.port atmsw.mapping e.1)) := by
          have h0 := remove_nio_mapping hrm
          simpa using h0
        have hres : (atmsw_delete_nio st req).1 =
            { switches := updateAssoc st.switches req.id sw2 } := by
          simp [atmsw_delete_nio, hlook, hloop, hrm]
        constructor
        · rw [hres, switchAt_update hlook, hm2]
          exact (symPairsB_iff _).mpr (symPairsP_filter_removedKeys hsymP hnd)
        · intro a b hab hpa hpb
          rw [hres, switchAt_update hlook, hm2]
          exact dictLookup_filter_removedKeys_persist hsymP hab hpa hpb

/-- C1 witness: each conjunct of the symmetric-pair invariant evaluated
at a concrete switch; the inserted channel and path pairs look up in both
directions, attach-NIO and detach-NIO leave a symmetric table, and a pair
away from the detached port survives detach-NIO. -/
theorem atmsw_symmetric_pairs_witness :
    (applyMapping ({ name := ("S"), ports := [(1, NioSpec.nio_null), (2, NioSpec.nio_null)], mapping := [] } : ATMSwitch) ("1:0:5") ("2:0:5") = Except.ok ((({ name := ("S"), ports := [(1, NioSpec.nio_null), (2, NioSpec.nio_null)], mapping := [] } : ATMSwitch).map_pvc 1 0 5 2 0 5).map_pvc 2 0 5 1 0 5) ∧
      dictLookup ((({ name := ("S"), ports := [(1, NioSpec.nio_null), (2, NioSpec.nio_null)], mapping := [] } : ATMSwitch).map_pvc 1 0 5 2 0 5).map_pvc 2 0 5 1 0 5).mapping (Addr.vc 1 0 5) = some (Addr.vc 2 0 5) ∧
      dictLookup ((({ name := ("S"), ports := [(1, NioSpec.nio_null), (2, NioSpec.nio_null)], mapping := [] } : ATMSwitch).map_pvc 1 0 5 2 0 5).map_pvc 2 0 5 1 0 5).mapping (Addr.vc 2 0 5) = some (Addr.vc 1 0 5)) ∧
    (applyMapping ({ name := ("S"), ports := [(1, NioSpec.nio_null), (2, NioSpec.nio_null)], mapping := [] } : ATMSwitch) ("1:0") ("2:0") = Except.ok ((({ name := ("S"), ports := [(1, NioSpec.nio_null), (2, NioSpec.nio_null)], mapping := [] } : ATMSwitch).map_vp 1 0 2 0).map_vp 2 0 1 0) ∧
      dictLookup ((({ name := ("S"), ports := [(1, NioSpec.nio_null), (2, NioSpec.nio_null)], mapping := [] } : ATMSwitch).map_vp 1 0 2 0).map_vp 2 0 1 0).mapping (Addr.vp 1 0) = some (Addr.vp 2 0) ∧
      dictLookup ((({ name := ("S"), ports := [(1, NioSpec.nio_null), (2, NioSpec.nio_null)], mapping := [] } : ATMSwitch).map_vp 1 0 2 0).map_vp 2 0 1 0).mapping (Addr.vp 2 0) = some (Addr.vp 1 0)) ∧
    (symPairsB (switchAt (atmsw_add_nio ({ switches := [(3, ({ name := ("S"), ports := [(1, NioSpec.nio_null), (2, NioSpec.nio_null)], mapping := [(Addr.vp 1 0, Addr.vp 2 0), (Addr.vp 2 0, Addr.vp 1 0)] } : ATMSwitch))] } : ServerState) ({ id := 3, port := 5, port_id := 0, nio := NioSpec.nio_null, mappings := [] } : AddNioRequest)).1 3).mapping = true ∧
      dictLookup (switchAt (atmsw_add_nio ({ switches := [(3, ({ name := ("S"), ports := [(1, NioSpec.nio_null), (2, NioSpec.nio_null)], mapping := [(Addr.vp 1 0, Addr.vp 2 0), (Addr.vp 2 0, Addr.vp 1 0)] } : ATMSwitch))] } : ServerState) ({ id := 3, port := 5, port_id := 0, nio := NioSpec.nio_null, mappings := [] } : AddNioRequest)).1 3).mapping
        (Addr.vp 1 0) = some (Addr.vp 2 0)) ∧
    (symPairsB (switchAt (atmsw_delete_nio ({ switches := [(4, ({ name := ("S"), ports := [(1, NioSpec.nio_null), (2, NioSpec.nio_null), (9, NioSpec.nio_null)], mapping := [(Addr.vp 1 0, Addr.vp 2 0), (Addr.vp 2 0, Addr.vp 1 0), (Addr.vp 2 7, Addr.vp 9 7), (Addr.vp 9 7, Addr.vp 2 7)] } : ATMSwitch))] } : ServerState) ({ id := 4, port := 1 } : DeleteNioRequest)).1 4).mapping = true ∧
      dictLookup (switchAt (atmsw_delete_nio ({ switches := [(4, ({ name := ("S"), ports := [(1, NioSpec.nio_null), (2, NioSpec.nio_null), (9, NioSpec.nio_null)], mapping := [(Addr.vp 1 0, Addr.vp 2 0), (Addr.vp 2 0, Addr.vp 1 0), (Addr.vp 2 7, Addr.vp 9 7), (Addr.vp 9 7, Addr.vp 2 7)] } : ATMSwitch))] } : ServerState) ({ id := 4, port := 1 } : DeleteNioRequest)).1 4).mapping
        (Addr.vp 2 7) = some (Addr.vp 9 7)) := by
  refine ⟨?_, ?_, ?_, ?_⟩
  · exact atmsw_symmetric_pairs.1 ({ name := ("S"), ports := [(1, NioSpec.nio_null), (2, NioSpec.nio_null)], mapping := [] } : ATMSwitch) ("1:0:5") ("2:0:5") 1 0 5 2 0 5
      (by decide) (by decide) (by decide) (by decide)
  · exact atmsw_symmetric_pairs.2.1 ({ name := ("S"), ports := [(1, NioSpec.nio_null), (2, NioSpec.nio_null)], mapping := [] } : ATMSwitch) ("1:0") ("2:0") 1 0 2 0
      (by decide) (by decide) (by decide) (by decide)
  · have h := atmsw_symmetric_pairs.2.2.1 ({ switches := [(3, ({ name := ("S"), ports := [(1, NioSpec.nio_null), (2, NioSpec.nio_null)], mapping := [(Addr.vp 1 0, Addr.vp 2 0), (Addr.vp 2 0, Addr.vp 1 0)] } : ATMSwitch))] } : ServerState) ({ id := 3, port := 5, port_id := 0, nio := NioSpec.nio_null, mappings := [] } : AddNioRequest) ({ name := ("S"), ports := [(1, NioSpec.nio_null), (2, NioSpec.nio_null)], mapping := [(Addr.vp 1 0, Addr.vp 2 0), (Addr.vp 2 0, Addr.vp 1 0)] } : ATMSwitch)
      (by decide) (by decide)
    exact ⟨h.1, h.2 (Addr.vp 1 0) (Addr.vp 2 0) (by decide)⟩
  · have h := atmsw_symmetric_pairs.2.2.2 ({ switches := [(4, ({ name := ("S"), ports := [(1, NioSpec.nio_null), (2, NioSpec.nio_null), (9, NioSpec.nio_null)], mapping := [(Addr.vp 1 0, Addr.vp 2 0), (Addr.vp 2 0, Addr.vp 1 0), (Addr.vp 2 7, Addr.vp 9 7), (Addr.vp 9 7, Addr.vp 2 7)] } : ATMSwitch))] } : ServerState) ({ id := 4, port := 1 } : DeleteNioRequest) ({ name := ("S"), ports := [(1, NioSpec.nio_null), (2, NioSpec.nio_null), (9, NioSpec.nio_null)], mapping := [(Addr.vp 1 0, Addr.vp 2 0), (Addr.vp 2 0, Addr.vp 1 0), (Addr.vp 2 7, Addr.vp 9 7), (Addr.vp 9 7, Addr.vp 2 7)] } : ATMSwitch)
      (by decide) (by decide) (by unfold keysNodup; decide) (by decide)
    exact ⟨h.1, h.2 (Addr.vp 2 7) (Addr.vp 9 7) (by decide) (by decide) (by decide)⟩

end GNS3
